import Mathlib

/-!
Verification of `point-cloud-render-engine/serve.py`: a static HTTP
development server that registers a MIME override for `.dds`, injects two
cross-origin isolation headers into every response, optionally changes into
`dist` at startup, binds port 8080 and serves until interrupted.

The script's behaviour is a thin layer over the CPython standard library
(`http.server.SimpleHTTPRequestHandler`, `mimetypes`, `socketserver`,
`os`); the relevant library semantics are embedded here alongside the
script's own four contributions (the `add_type` call, the `end_headers`
override, the `dist` check, and the `__main__` serve loop).
-/

namespace SidewalkScanner

/-- An HTTP response header: field name and value. -/
structure Header where
  name : String
  value : String
deriving DecidableEq

/-- The process-wide MIME registry (`mimetypes.types_map`): an association
list from file extension (with leading dot) to content type.  A later
`add_type` shadows earlier entries, matching dict assignment. -/
abbrev MimeRegistry := List (String × String)

/-- Dict-style lookup in an association list keyed by strings. -/
def lookupExt : MimeRegistry → String → Option String
  | [], _ => none
  | (k, v) :: rest, ext => if ext = k then some v else lookupExt rest ext

/-- `mimetypes.add_type(ctype, ext)`: register `ext → ctype` in the registry,
shadowing any previous mapping for `ext`. -/
def add_type (ctype ext : String) (reg : MimeRegistry) : MimeRegistry :=
  (ext, ctype) :: reg

/-- Helper for `posixpath.splitext`: among the (reversed) characters that
precede the final dot, is there a character other than `.` before the
directory separator?  (The stdlib skips a basename made only of leading
dots, so `.dds` the hidden file has no extension.) -/
def hasStem : List Char → Bool
  | [] => false
  | c :: cs => if c = '/' then false else if c = '.' then hasStem cs else true

/-- Helper for `posixpath.splitext`: walk the reversed character list from
the end of the path; collect characters until the last dot.  Hitting a `/`
first, or the end, means no extension; at the dot, the extension counts
only if a non-dot character precedes it within the basename. -/
def posixExtRev : List Char → List Char → Option (List Char)
  | [], _ => none
  | c :: cs, acc =>
    if c = '/' then none
    else if c = '.' then (if hasStem cs then some ('.' :: acc) else none)
    else posixExtRev cs (c :: acc)

/-- `posixpath.splitext(p)`: split `p` into `(base, ext)` where `ext` is the
suffix from the last dot of the basename, empty when the basename has no
dot or only leading dots. -/
def splitext (p : String) : String × String :=
  match posixExtRev p.data.reverse [] with
  | some ext => (⟨p.data.take (p.data.length - ext.length)⟩, ⟨ext⟩)
  | none => (p, "")

/-- `SimpleHTTPRequestHandler.extensions_map` (CPython 3.9+): the handler's
own small table, consulted before the `mimetypes` registry. -/
def handlerExtensionsMap : MimeRegistry :=
  [ (".gz", "application/gzip")
  , (".Z", "application/octet-stream")
  , (".bz2", "application/x-bzip2")
  , (".xz", "application/x-xz") ]

/-- `str.lower()` on an extension, character by character. -/
def strLower (s : String) : String :=
  ⟨s.data.map Char.toLower⟩

/-- `mimetypes.guess_type(path)` restricted to plain POSIX paths (no URL
scheme, no compressed-suffix re-splitting, neither of which can arise for
the extensions at issue): look up the extension, then its lowercasing. -/
def mimetypes_guess_type (reg : MimeRegistry) (path : String) : Option String :=
  let ext := (splitext path).2
  match lookupExt reg ext with
  | some t => some t
  | none => lookupExt reg (strLower ext)

/-- `SimpleHTTPRequestHandler.guess_type(path)` (CPython 3.9+): consult the
handler's own table (exact then lowercased extension), then the global
`mimetypes` registry, falling back to `application/octet-stream`. -/
def guess_type (reg : MimeRegistry) (path : String) : String :=
  let ext := (splitext path).2
  match lookupExt handlerExtensionsMap ext with
  | some t => t
  | none =>
    match lookupExt handlerExtensionsMap (strLower ext) with
    | some t => t
    | none =>
      match mimetypes_guess_type reg path with
      | some t => t
      | none => "application/octet-stream"

/-- The two cross-origin isolation headers the script injects. -/
def corsHeaders : List Header :=
  [ ⟨"Cross-Origin-Embedder-Policy", "require-corp"⟩
  , ⟨"Cross-Origin-Opener-Policy", "same-origin"⟩ ]

/-- `DdsHTTPRequestHandler.end_headers`: the override sends the two CORS
headers (appending them to the buffered header block) and then delegates to
`super().end_headers()`, which finalizes the block.  Input: the headers
buffered so far; output: the finalized header block. -/
def end_headers (buffered : List Header) : List Header :=
  buffered ++ corsHeaders

/-- The per-request server state visible to the handler: the MIME registry
and the process working directory. -/
structure ServerState where
  registry : MimeRegistry
  cwd : String

/-- `SimpleHTTPRequestHandler.translate_path`: resolve the request path
against the working directory (normalization and traversal filtering
elided; no claim depends on them). -/
def translate_path (cwd path : String) : String :=
  cwd ++ path

/-- A finalized HTTP response: status, header block, body bytes. -/
structure Response where
  status : Nat
  headers : List Header
  body : List UInt8
deriving DecidableEq

/-- The filesystem visible to the server: byte content per absolute path. -/
abbrev FileSystem := String → Option (List UInt8)

/-- Modelled after CPython `BaseHTTPRequestHandler.send_error`: the HTML
error document with code and message interpolated (boilerplate abridged). -/
def errorPageHTML (code : Nat) (message : String) : String :=
  "<!DOCTYPE HTML><html><head><title>Error response</title></head><body><h1>Error response</h1><p>Error code: " ++ toString code ++ "</p><p>Message: " ++ message ++ ".</p></body></html>"

/-- Handling one GET request (`SimpleHTTPRequestHandler.do_GET` through
`send_head`/`copyfile`, with the script's `end_headers` override): resolve
the path against the working directory; an existing file is served with
status 200, its content type guessed from the translated path, and its
exact bytes; otherwise `send_error(404)` produces the standard error
response.  Returns the (unchanged) state together with the response. -/
def handle_request (st : ServerState) (fs : FileSystem) (path : String) :
    ServerState × Response :=
  match fs (translate_path st.cwd path) with
  | some content =>
    ({ registry := st.registry, cwd := st.cwd },
     { status := 200
     , headers := end_headers
         [ ⟨"Content-Type", guess_type st.registry (translate_path st.cwd path)⟩
         , ⟨"Content-Length", toString content.length⟩ ]
     , body := content })
  | none =>
    let body := (errorPageHTML 404 "File not found").toUTF8.toList
    ({ registry := st.registry, cwd := st.cwd },
     { status := 404
     , headers := end_headers
         [ ⟨"Connection", "close"⟩
         , ⟨"Content-Type", "text/html;charset=utf-8"⟩
         , ⟨"Content-Length", toString body.length⟩ ]
     , body := body })

/-- `serve_forever` restricted to a finite request trace: handle each
request in order, threading the server state. -/
def serveAll (st : ServerState) (fs : FileSystem) :
    List String → ServerState × List Response
  | [] => (st, [])
  | p :: ps =>
    let h := handle_request st fs p
    let rest := serveAll h.1 fs ps
    (rest.1, h.2 :: rest.2)

/-- A directory entry is a plain file or a directory. -/
inductive EntryKind where
  | file : EntryKind
  | dir : EntryKind
deriving DecidableEq

/-- The launch directory's entries: name and kind. -/
abbrev LaunchDir := List (String × EntryKind)

/-- Lookup of a named entry in the launch directory. -/
def lookupEntry : LaunchDir → String → Option EntryKind
  | [], _ => none
  | (k, v) :: rest, name => if name = k then some v else lookupEntry rest name

/-- `os.path.exists(name)` relative to the launch directory. -/
def path_exists (launch : LaunchDir) (name : String) : Bool :=
  (lookupEntry launch name).isSome

/-- The error that escapes startup when `os.chdir` hits a non-directory. -/
inductive StartupError where
  | notADirectory : StartupError
deriving DecidableEq

/-- `os.chdir(name)`: succeeds (returning the new working directory) only
when `name` is a directory; raises `NotADirectoryError` otherwise. -/
def chdir (launch : LaunchDir) (cwd name : String) : Except StartupError String :=
  match lookupEntry launch name with
  | some EntryKind.dir => Except.ok (cwd ++ "/" ++ name)
  | _ => Except.error StartupError.notADirectory

/-- The script's startup prologue: `if os.path.exists('dist'): os.chdir('dist')`.
Returns the working directory the server will serve from, or the uncaught
`chdir` error. -/
def startupChdir (launch : LaunchDir) (cwd : String) : Except StartupError String :=
  if path_exists launch "dist" then chdir launch cwd "dist"
  else Except.ok cwd

/-- `PORT = 8080`. -/
def PORT : Nat := 8080

/-- Where, if anywhere, the process receives its one interrupt signal. -/
inductive InterruptPoint where
  | noInterrupt : InterruptPoint
  | duringBind : InterruptPoint
  | duringPrint : InterruptPoint
  | duringServe : InterruptPoint
deriving DecidableEq

/-- Observable outcome of a terminated process: exit code, the ports on
which a bind was attempted (in order), the lines printed, and whether no
listening socket remains bound at exit. -/
structure ProcResult where
  exitCode : Nat
  bindAttempts : List Nat
  output : List String
  socketReleased : Bool
deriving DecidableEq

/-- First startup line printed by the script. -/
def startLine1 : String := "🚀 Serving at http://localhost:" ++ toString PORT

/-- Second startup line printed by the script. -/
def startLine2 : String := "📁 DDS files will be served with correct MIME type"

/-- The farewell line printed by the `KeyboardInterrupt` handler. -/
def stopLine : String := "\n👋 Server stopped"

/-- The `__main__` block of the script, as observable process behaviour.
In source order: the `dist` check and `chdir`; `TCPServer(("", PORT), ...)`
construction (its constructor binds, and on any exception closes the socket
and re-raises); the two startup prints; `serve_forever()` wrapped in
`try/except KeyboardInterrupt` — the only `try` in the script, covering
only that call.  An uncaught exception terminates the process with a
nonzero exit (CPython uses 130 for an uncaught `KeyboardInterrupt`, 1 for
other exceptions); the `with` block releases the socket on any exit path
after construction succeeds.  `none` means the process never terminates
(no interrupt ever arrives). -/
def mainRun (launch : LaunchDir) (bindOk : Bool) (intr : InterruptPoint) :
    Option ProcResult :=
  match startupChdir launch "." with
  | Except.error _ =>
    some { exitCode := 1, bindAttempts := [], output := [], socketReleased := true }
  | Except.ok _ =>
    if intr = InterruptPoint.duringBind then
      some { exitCode := 130, bindAttempts := [PORT], output := [], socketReleased := true }
    else if !bindOk then
      some { exitCode := 1, bindAttempts := [PORT], output := [], socketReleased := true }
    else if intr = InterruptPoint.duringPrint then
      some { exitCode := 130, bindAttempts := [PORT], output := [startLine1], socketReleased := true }
    else if intr = InterruptPoint.duringServe then
      some { exitCode := 0, bindAttempts := [PORT]
           , output := [startLine1, startLine2, stopLine], socketReleased := true }
    else
      none

/-! Helper lemmas. -/

/-- Appending strings concatenates their character data. -/
theorem data_append (s t : String) : (s ++ t).data = s.data ++ t.data := rfl

/-- Walking the reversed characters of a path that ends in `.dds`: the
first three characters are not separators or dots, so the walk reaches the
dot, and the extension is `.dds` exactly when the remaining basename
characters contain a stem. -/
theorem posixExtRev_dds (lr : List Char) :
    posixExtRev ('s' :: 'd' :: 'd' :: '.' :: lr) [] =
      (if hasStem lr then some ['.', 'd', 'd', 's'] else none) := by
  simp [posixExtRev]

/-- `splitext` on a path ending in `.dds` yields extension `.dds`, or the
empty extension when the basename consists only of dots before it. -/
theorem splitext_dds (l : List Char) :
    (splitext ⟨l ++ ['.', 'd', 'd', 's']⟩).2 =
      (if hasStem l.reverse then ".dds" else "") := by
  unfold splitext
  have h : (String.mk (l ++ ['.', 'd', 'd', 's'])).data.reverse =
      's' :: 'd' :: 'd' :: '.' :: l.reverse := by
    simp
  rw [h, posixExtRev_dds]
  cases hs : hasStem l.reverse <;> simp

/-- After the script's `add_type` call, `guess_type` returns
`application/octet-stream` on every path ending in `.dds`, for any base
registry whose keys are genuine dotted extensions (no empty-string key). -/
theorem guess_type_dds (reg₀ : MimeRegistry) (hreg : lookupExt reg₀ "" = none)
    (l : List Char) :
    guess_type (add_type "application/octet-stream" ".dds" reg₀)
        ⟨l ++ ['.', 'd', 'd', 's']⟩ =
      "application/octet-stream" := by
  have hsp := splitext_dds l
  unfold guess_type mimetypes_guess_type
  rw [hsp]
  cases hs : hasStem l.reverse
  · have h4 : lookupExt handlerExtensionsMap "" = none := by decide
    have h5 : strLower "" = "" := by decide
    have hne : ("" : String) ≠ ".dds" := by decide
    simp [h4, h5, add_type, lookupExt, hne, hreg]
  · have h1 : lookupExt handlerExtensionsMap ".dds" = none := by decide
    have h2 : strLower ".dds" = ".dds" := by decide
    simp [h1, h2, add_type, lookupExt]

/-- Handling a request leaves the server state unchanged. -/
theorem handle_request_state (st : ServerState) (fs : FileSystem) (p : String) :
    (handle_request st fs p).1 = st := by
  unfold handle_request
  cases fs (translate_path st.cwd p) <;> rfl

/-- Handling a request trace leaves the server state unchanged. -/
theorem serveAll_state (st : ServerState) (fs : FileSystem) (ps : List String) :
    (serveAll st fs ps).1 = st := by
  induction ps generalizing st with
  | nil => rfl
  | cons p ps ih =>
    simp [serveAll, handle_request_state, ih]

/-- Every request in a trace receives exactly one response. -/
theorem serveAll_length (st : ServerState) (fs : FileSystem) (ps : List String) :
    ((serveAll st fs ps).2).length = ps.length := by
  induction ps generalizing st with
  | nil => rfl
  | cons p ps ih =>
    simp [serveAll, ih]

/-! Claim theorems. -/

/-- C1: for every response the server sends, success or error, the headers
`Cross-Origin-Embedder-Policy: require-corp` and
`Cross-Origin-Opener-Policy: same-origin` are present, appended by the
`end_headers` override before the header block is finalized. -/
theorem cors_headers_on_every_response (st : ServerState) (fs : FileSystem)
    (path : String) :
    Header.mk "Cross-Origin-Embedder-Policy" "require-corp" ∈
      ((handle_request st fs path).2).headers ∧
    Header.mk "Cross-Origin-Opener-Policy" "same-origin" ∈
      ((handle_request st fs path).2).headers ∧
    ∃ buffered, ((handle_request st fs path).2).headers =
      buffered ++ corsHeaders := by
  unfold handle_request
  cases fs (translate_path st.cwd path) <;>
    exact ⟨by simp [end_headers, corsHeaders], by simp [end_headers, corsHeaders],
           _, rfl⟩

/-- C2 counterexample: the claim quantifies over every request whose path
ends in `.dds`, but a request for a missing `.dds` file is answered by
`send_error(404)`, whose `Content-Type` is `text/html;charset=utf-8`, not
`application/octet-stream`. -/
theorem dds_content_type_counterexample :
    Header.mk "Content-Type" "application/octet-stream" ∉
      ((handle_request ⟨add_type "application/octet-stream" ".dds" [], "/srv"⟩
          (fun _ => none) "/missing.dds").2).headers ∧
    ((handle_request ⟨add_type "application/octet-stream" ".dds" [], "/srv"⟩
        (fun _ => none) "/missing.dds").2).status = 404 ∧
    Header.mk "Content-Type" "text/html;charset=utf-8" ∈
      ((handle_request ⟨add_type "application/octet-stream" ".dds" [], "/srv"⟩
          (fun _ => none) "/missing.dds").2).headers := by
  refine ⟨by decide, by decide, by decide⟩

/-- C2 amended: for every request whose path ends in `.dds` and that
resolves to an existing file (a success response), the `Content-Type`
header is `application/octet-stream`, regardless of the base MIME registry
(any registry keyed by genuine dotted extensions). -/
theorem dds_content_type_on_success (reg₀ : MimeRegistry) (cwd : String)
    (fs : FileSystem) (l : List Char) (path : String) (content : List UInt8)
    (hreg : lookupExt reg₀ "" = none)
    (hpath : path.data = l ++ ['.', 'd', 'd', 's'])
    (hf : fs (translate_path cwd path) = some content) :
    Header.mk "Content-Type" "application/octet-stream" ∈
      ((handle_request ⟨add_type "application/octet-stream" ".dds" reg₀, cwd⟩
          fs path).2).headers := by
  have ht : translate_path cwd path = ⟨(cwd.data ++ l) ++ ['.', 'd', 'd', 's']⟩ := by
    show cwd ++ path = _
    refine congrArg String.mk ?_
    rw [hpath, List.append_assoc]
  unfold handle_request
  rw [show (⟨add_type "application/octet-stream" ".dds" reg₀, cwd⟩ : ServerState).cwd
        = cwd from rfl, ht]
  rw [ht] at hf
  rw [hf]
  rw [guess_type_dds reg₀ hreg (cwd.data ++ l)]
  simp [end_headers]

/-- C3: the working directory is changed exactly once at startup, to
`dist`, when a subdirectory named `dist` exists; it is left unchanged when
no entry named `dist` exists (absence is not an error); and request
handling resolves paths only against the resulting working directory. -/
theorem startup_dist_chdir (launch : LaunchDir) (cwd : String) :
    (lookupEntry launch "dist" = some EntryKind.dir →
      startupChdir launch cwd = Except.ok (cwd ++ "/" ++ "dist")) ∧
    (lookupEntry launch "dist" = none →
      startupChdir launch cwd = Except.ok cwd) ∧
    (∀ (reg : MimeRegistry) (c : String) (fs fs₂ : FileSystem) (path : String),
      fs (translate_path c path) = fs₂ (translate_path c path) →
      handle_request ⟨reg, c⟩ fs path = handle_request ⟨reg, c⟩ fs₂ path) := by
  refine ⟨fun h => ?_, fun h => ?_, fun reg c fs fs₂ path h => ?_⟩
  · simp [startupChdir, path_exists, chdir, h]
  · simp [startupChdir, path_exists, h]
  · unfold handle_request
    rw [show (⟨reg, c⟩ : ServerState).cwd = c from rfl, h]

/-- C3 witness: concrete launches with and without a `dist` directory. -/
theorem startup_dist_chdir_witness :
    startupChdir [("dist", EntryKind.dir)] "/app" = Except.ok ("/app" ++ "/" ++ "dist") ∧
    startupChdir [("x", EntryKind.file)] "/app" = Except.ok "/app" :=
  ⟨(startup_dist_chdir [("dist", EntryKind.dir)] "/app").1 rfl,
   (startup_dist_chdir [("x", EntryKind.file)] "/app").2.1 rfl⟩

/-- C4: a GET for an existing file under the serving root returns status
200, the file's exact byte content, and a `Content-Type` derived from the
(possibly overridden) MIME mapping via `guess_type`. -/
theorem get_existing_file_ok (reg : MimeRegistry) (cwd : String)
    (fs : FileSystem) (path : String) (content : List UInt8)
    (h : fs (translate_path cwd path) = some content) :
    ((handle_request ⟨reg, cwd⟩ fs path).2).status = 200 ∧
    ((handle_request ⟨reg, cwd⟩ fs path).2).body = content ∧
    Header.mk "Content-Type" (guess_type reg (translate_path cwd path)) ∈
      ((handle_request ⟨reg, cwd⟩ fs path).2).headers := by
  unfold handle_request
  rw [show (⟨reg, cwd⟩ : ServerState).cwd = cwd from rfl, h]
  exact ⟨rfl, rfl, by simp [end_headers]⟩

/-- C4 witness: a one-file filesystem served at its own path. -/
theorem get_existing_file_ok_witness :
    ((handle_request ⟨[], "/srv"⟩
        (fun p => if p = "/srv/index.html" then some [60, 33] else none)
        "/index.html").2).status = 200 ∧
    ((handle_request ⟨[], "/srv"⟩
        (fun p => if p = "/srv/index.html" then some [60, 33] else none)
        "/index.html").2).body = [60, 33] :=
  ⟨(get_existing_file_ok [] "/srv"
      (fun p => if p = "/srv/index.html" then some [60, 33] else none)
      "/index.html" [60, 33] (by decide)).1,
   (get_existing_file_ok [] "/srv"
      (fun p => if p = "/srv/index.html" then some [60, 33] else none)
      "/index.html" [60, 33] (by decide)).2.1⟩

/-- C5: an interrupt received inside `serve_forever` is caught; the process
stops, the socket is released, the farewell line is printed, and the exit
code is 0 — and an exit code of 0 arises from no other interrupt point. -/
theorem interrupt_graceful_shutdown (launch : LaunchDir) (c : String)
    (h : startupChdir launch "." = Except.ok c) :
    mainRun launch true InterruptPoint.duringServe =
      some { exitCode := 0, bindAttempts := [PORT]
           , output := [startLine1, startLine2, stopLine], socketReleased := true } ∧
    (∀ (b : Bool) (intr : InterruptPoint) (r : ProcResult),
      mainRun launch b intr = some r → r.exitCode = 0 →
      intr = InterruptPoint.duringServe) := by
  constructor
  · simp [mainRun, h]
  · intro b intr r hr h0
    cases intr <;> cases b <;> simp [mainRun, h] at hr <;>
      first
      | rfl
      | (rw [← hr] at h0; simp at h0)

/-- C5 witness: the empty launch directory, no `dist`. -/
theorem interrupt_graceful_shutdown_witness :
    mainRun [] true InterruptPoint.duringServe =
      some { exitCode := 0, bindAttempts := [PORT]
           , output := [startLine1, startLine2, stopLine], socketReleased := true } :=
  (interrupt_graceful_shutdown [] "." rfl).1

/-- C6: a request path with no corresponding file gets a 404 client-error
response, the server state is unchanged, and every request in any trace
receives a response (no crash, no hang). -/
theorem missing_file_client_error (st : ServerState) (fs : FileSystem)
    (path : String) (ps : List String)
    (h : fs (translate_path st.cwd path) = none) :
    ((handle_request st fs path).2).status = 404 ∧
    400 ≤ ((handle_request st fs path).2).status ∧
    ((handle_request st fs path).2).status < 500 ∧
    (handle_request st fs path).1 = st ∧
    ((serveAll st fs ps).2).length = ps.length := by
  have h404 : ((handle_request st fs path).2).status = 404 := by
    unfold handle_request
    rw [h]
  exact ⟨h404, by rw [h404]; decide, by rw [h404]; decide,
         handle_request_state st fs path, serveAll_length st fs ps⟩

/-- C6 witness: an empty filesystem and a two-request trace. -/
theorem missing_file_client_error_witness :
    ((handle_request ⟨[], "/srv"⟩ (fun _ => none) "/nope").2).status = 404 ∧
    ((serveAll ⟨[], "/srv"⟩ (fun _ => none) ["/a", "/b"]).2).length = 2 :=
  ⟨(missing_file_client_error ⟨[], "/srv"⟩ (fun _ => none) "/nope" ["/a", "/b"] rfl).1,
   (missing_file_client_error ⟨[], "/srv"⟩ (fun _ => none) "/nope" ["/a", "/b"] rfl).2.2.2.2⟩

/-- C7: a bind failure at startup is fatal — nonzero exit, nothing printed
— and every run attempts the bind at most once and only on port 8080 (no
retry, no alternate port). -/
theorem bind_failure_fatal (launch : LaunchDir) (c : String)
    (h : startupChdir launch "." = Except.ok c) :
    mainRun launch false InterruptPoint.noInterrupt =
      some { exitCode := 1, bindAttempts := [PORT], output := []
           , socketReleased := true } ∧
    (∀ (b : Bool) (intr : InterruptPoint) (r : ProcResult),
      mainRun launch b intr = some r →
      r.bindAttempts = [] ∨ r.bindAttempts = [PORT]) := by
  constructor
  · simp [mainRun, h]
  · intro b intr r hr
    cases intr <;> cases b <;> simp [mainRun, h] at hr <;>
      rw [← hr] <;> simp

/-- C7 witness: bind failure in the empty launch directory. -/
theorem bind_failure_fatal_witness :
    mainRun [] false InterruptPoint.noInterrupt =
      some { exitCode := 1, bindAttempts := [PORT], output := []
           , socketReleased := true } :=
  (bind_failure_fatal [] "." rfl).1

/-- C8: the `.dds` registry entry is established by the startup `add_type`
call, and handling any request trace leaves the registry and the working
directory of the server state unchanged. -/
theorem request_handling_preserves_state (reg : MimeRegistry)
    (st : ServerState) (fs : FileSystem) (ps : List String) :
    lookupExt (add_type "application/octet-stream" ".dds" reg) ".dds" =
      some "application/octet-stream" ∧
    (serveAll st fs ps).1.registry = st.registry ∧
    (serveAll st fs ps).1.cwd = st.cwd := by
  refine ⟨by simp [add_type, lookupExt], ?_, ?_⟩ <;>
    rw [serveAll_state st fs ps]

/-- C9: the startup guard is `os.path.exists`, not `os.path.isdir`; when an
entry named `dist` exists but is a plain file, `os.chdir` raises an
uncaught error and the process dies with a nonzero exit before any bind is
attempted. -/
theorem dist_file_crashes_before_bind (launch : LaunchDir) (b : Bool)
    (intr : InterruptPoint)
    (h : lookupEntry launch "dist" = some EntryKind.file) :
    startupChdir launch "." = Except.error StartupError.notADirectory ∧
    mainRun launch b intr =
      some { exitCode := 1, bindAttempts := [], output := []
           , socketReleased := true } := by
  have hch : startupChdir launch "." = Except.error StartupError.notADirectory := by
    simp [startupChdir, path_exists, chdir, h]
  exact ⟨hch, by simp [mainRun, hch]⟩

/-- C9 witness: a launch directory holding a plain file named `dist`. -/
theorem dist_file_crashes_before_bind_witness :
    mainRun [("dist", EntryKind.file)] true InterruptPoint.noInterrupt =
      some { exitCode := 1, bindAttempts := [], output := []
           , socketReleased := true } :=
  (dist_file_crashes_before_bind [("dist", EntryKind.file)] true
    InterruptPoint.noInterrupt rfl).2

/-- C10: the `try/except KeyboardInterrupt` covers only `serve_forever`; an
interrupt during the bind or during the startup prints is uncaught, so the
farewell line is never printed and the exit code is nonzero, while the
socket is still released. -/
theorem startup_interrupt_uncaught (launch : LaunchDir) (c : String)
    (h : startupChdir launch "." = Except.ok c) :
    mainRun launch true InterruptPoint.duringBind =
      some { exitCode := 130, bindAttempts := [PORT], output := []
           , socketReleased := true } ∧
    mainRun launch true InterruptPoint.duringPrint =
      some { exitCode := 130, bindAttempts := [PORT], output := [startLine1]
           , socketReleased := true } ∧
    (∀ r : ProcResult,
      (mainRun launch true InterruptPoint.duringBind = some r ∨
       mainRun launch true InterruptPoint.duringPrint = some r) →
      r.exitCode ≠ 0 ∧ stopLine ∉ r.output ∧ r.socketReleased = true) := by
  have h1 : mainRun launch true InterruptPoint.duringBind =
      some { exitCode := 130, bindAttempts := [PORT], output := []
           , socketReleased := true } := by
    simp [mainRun, h]
  have h2 : mainRun launch true InterruptPoint.duringPrint =
      some { exitCode := 130, bindAttempts := [PORT], output := [startLine1]
           , socketReleased := true } := by
    simp [mainRun, h]
  refine ⟨h1, h2, fun r hr => ?_⟩
  rcases hr with hr | hr
  · rw [h1] at hr
    cases hr
    exact ⟨by decide, by decide, rfl⟩
  · rw [h2] at hr
    cases hr
    exact ⟨by decide, by decide, rfl⟩

/-- C10 witness: the empty launch directory, interrupt during the bind. -/
theorem startup_interrupt_uncaught_witness :
    mainRun [] true InterruptPoint.duringBind =
      some { exitCode := 130, bindAttempts := [PORT], output := []
           , socketReleased := true } :=
  (startup_interrupt_uncaught [] "." rfl).1

/-- C2 amended witness: a concrete `.dds` file found on disk. -/
theorem dds_content_type_on_success_witness :
    Header.mk "Content-Type" "application/octet-stream" ∈
      ((handle_request
          ⟨add_type "application/octet-stream" ".dds" [(".html", "text/html")], "/srv"⟩
          (fun p => if p = "/srv/tex.dds" then some [1, 2] else none)
          "/tex.dds").2).headers :=
  dds_content_type_on_success [(".html", "text/html")] "/srv"
    (fun p => if p = "/srv/tex.dds" then some [1, 2] else none)
    ['/', 't', 'e', 'x'] "/tex.dds" [1, 2] (by decide) (by decide) (by decide)

end SidewalkScanner
